import Mathlib

/-!
Verification development for the Georisques crawler connector
(`src/connector.py`, class `GeorisquesConnector`).

The connector's generator method `load_from_state` is embedded as a pure
state-passing function.  The Playwright renderer, BeautifulSoup and
`web_html_cleanup` are external collaborators: they are modelled by a
`Renderer` oracle that, for a URL, either returns the rendered page data
(extracted title, cleaned text, and the `href` attributes of the page's
anchor elements, in document order) or fails with an exception message.
A failure of the oracle models an exception raised by
`context.new_page()` having succeeded and `page.goto` / `page.content()`
raising; every step after a successful `page.content()` (parsing,
extraction, document construction, link scan, `page.close()`) is
modelled as non-raising, matching the collaborator contracts (the
extractor is pure and must not raise on malformed HTML).

Calls to the collaborators are recorded in a ghost event trace
(`CrawlEvent`) so that resource-lifecycle properties (number of
`page.goto` calls, page open/close pairing, session acquisition) can be
stated.  The Python `while` loop is embedded with a ghost fuel argument
driving structural recursion; `crawlLoop_fuel_stable` shows the fuel
supplied by `load_from_state` is past the stabilisation point, so the
embedding computes the same final state as the unbounded loop.
-/

set_option autoImplicit false

namespace Georisques

/-- `MAX_PAGES_TO_VISIT` from `connector.py` (line 23). -/
def MAX_PAGES_TO_VISIT : Nat := 1000

/-- A single quote character, used in the f-string error message. -/
def sq : String := String.singleton (Char.ofNat 39)

/-- One `Section` of a `Document` (from `danswer.connectors.models`,
as used at `connector.py` line 94: `Section(link=..., text=...)`). -/
structure Section where
  link : String
  text : String
deriving DecidableEq

/-- A `Document` as constructed at `connector.py` lines 92-98.
The `metadata` field is always the empty mapping and is omitted;
`source` is the constant `DocumentSource.GEORISQUES`. -/
structure Document where
  id : String
  sections : List Section
  source : String
  semantic_identifier : String
deriving DecidableEq

/-- The data the crawl engine consumes from one successfully rendered
page: the extractor's title and cleaned text, and the `href` attributes
of all `<a href=...>` anchors of the rendered HTML, in document order
(an anchor with an empty `href` attribute appears as `""`). -/
structure PageData where
  title : Option String
  cleaned_text : String
  hrefs : List String
deriving DecidableEq

/-- The renderer collaborator: `page.goto(url)` + `page.content()`
followed by extraction, as one oracle.  `Except.error e` models an
exception with message `e` raised by `page.goto`/`page.content()`
(after `context.new_page()` succeeded). -/
structure Renderer where
  render : String → Except String PageData

/-- Ghost trace of collaborator calls made during a run. -/
inductive CrawlEvent where
  /-- `start_playwright()` succeeded: playwright + browser + context acquired. -/
  | sessionStart : CrawlEvent
  /-- `context.new_page()` (line 82). -/
  | pageOpen (url : String) : CrawlEvent
  /-- `page.goto(current_url)` (line 83): the URL is passed to the renderer. -/
  | renderCall (url : String) : CrawlEvent
  /-- `page.close()` (line 109). -/
  | pageClose (url : String) : CrawlEvent
  /-- `playwright.stop()` (line 124). -/
  | sessionStop : CrawlEvent
deriving DecidableEq

/-- The URLs passed to `page.goto`, in call order. -/
def renderUrls (evs : List CrawlEvent) : List String :=
  evs.filterMap fun e =>
    match e with
    | CrawlEvent.renderCall u => some u
    | _ => none

/-- The URLs for which `context.new_page()` was called, in call order. -/
def pageOpenUrls (evs : List CrawlEvent) : List String :=
  evs.filterMap fun e =>
    match e with
    | CrawlEvent.pageOpen u => some u
    | _ => none

/-- The URLs for which `page.close()` was called, in call order. -/
def pageCloseUrls (evs : List CrawlEvent) : List String :=
  evs.filterMap fun e =>
    match e with
    | CrawlEvent.pageClose u => some u
    | _ => none

/-- Python `list.append`. -/
def listPush {α : Type} (l : List α) (x : α) : List α := l ++ [x]

/-- Python `list.pop()` with no index: removes and returns the last
element, or signals empty. -/
def listPop {α : Type} (l : List α) : Option (α × List α) :=
  match l.getLast? with
  | none => none
  | some x => some (x, l.dropLast)

/-- Python truthiness fallback `parsed_html.title or current_url`
(line 96): `None` and the empty string both fall back. -/
def pyOr (t : Option String) (d : String) : String :=
  match t with
  | none => d
  | some s => if s = "" then d else s

/-- The error message `f"Failed to fetch '{current_url}': {e}"` (line 113). -/
def mkFetchError (url e : String) : String :=
  "Failed to fetch " ++ sq ++ url ++ sq ++ ": " ++ e

/-- The `Document(...)` constructor call at lines 92-98. -/
def mkDocument (currentUrl : String) (pg : PageData) : Document :=
  { id := currentUrl
    sections := [{ link := currentUrl, text := pg.cleaned_text }]
    source := "GEORISQUES"
    semantic_identifier := pyOr pg.title currentUrl }

/-- Python `str.endswith(pat)`: character-level suffix test.  (Defined
on the character lists so that it evaluates inside the kernel.) -/
def strEndsWith (s pat : String) : Bool :=
  pat.data.isSuffixOf s.data

/-- Python `str.startswith(pat)`: character-level prefix test. -/
def strStartsWith (s pat : String) : Bool :=
  pat.data.isPrefixOf s.data

/-- Split a character list at the first occurrence of the (nonempty)
separator `sep`, returning the parts before and after it, or `none`
when the separator does not occur. -/
def splitFirstAt (sep : List Char) : List Char → Option (List Char × List Char)
  | [] => if sep = [] then some ([], []) else none
  | c :: cs =>
    if sep.isPrefixOf (c :: cs) then some ([], (c :: cs).drop sep.length)
    else
      match splitFirstAt sep cs with
      | none => none
      | some (pre, post) => some (c :: pre, post)

/-- Everything before the first `?` or `#` of a URL: the URL without
its query and fragment. -/
def stripQueryFragment (u : String) : String :=
  String.mk (u.data.takeWhile fun c => c ≠ '?' ∧ c ≠ '#')

/-- The `scheme://host` part of an absolute URL. -/
def urlOrigin (u : String) : String :=
  match splitFirstAt "://".data u.data with
  | some (scheme, rest) =>
      String.mk (scheme ++ "://".data ++ rest.takeWhile fun c => c ≠ '/')
  | none => u

/-- The prefix of `u` up to and including its last slash. -/
def upToLastSlash (u : String) : String :=
  String.mk ((u.data.reverse.dropWhile fun c => c ≠ '/').reverse)

/-- Model of the stdlib collaborator `urllib.parse.urljoin` (line 105),
restricted to absolute http(s) base URLs with a nonempty path and to
hrefs without dot-segments or bare fragments, which covers the URLs
appearing in this development: an href that carries a scheme is
returned as is, a root-relative href replaces the base's path, a
query-only href replaces the base's query, and any other href replaces
the last path segment of the base. -/
def urljoin (base href : String) : String :=
  if (splitFirstAt "://".data href.data).isSome then href
  else if strStartsWith href "/" then urlOrigin base ++ href
  else if strStartsWith href "?" then stripQueryFragment base ++ href
  else upToLastSlash (stripQueryFragment base) ++ href

/-- Follows the spec wording, for comparison with the code: the path
component of an absolute URL, i.e. what remains after removing the
scheme, the authority, the query and the fragment. -/
def spec_targetPath (u : String) : String :=
  let noq := stripQueryFragment u
  match splitFirstAt "://".data noq.data with
  | some (_, rest) => String.mk (rest.dropWhile fun c => c ≠ '/')
  | none => noq

/-- The local state of one execution of `load_from_state`
(lines 56-66), plus the ghost fields `batches` (what the generator has
yielded so far, in order), `events` (collaborator call trace) and
`pops` (how many times `to_visit.pop()` ran). -/
structure LoopState where
  visited_links : List String
  to_visit : List String
  loaded_count : Nat
  doc_batch : List Document
  at_least_one_doc : Bool
  last_error : Option String
  batches : List (List Document)
  events : List CrawlEvent
  pops : Nat
deriving DecidableEq

/-- The `for link in soup.find_all("a", href=True): ...` loop
(lines 102-107): for each href that is truthy and ends in `".pdf"`,
resolve it against `current_url` and append it to `to_visit` unless the
resolved URL is already in `visited_links`. -/
def pushPdfLinks (currentUrl : String) (visited_links : List String)
    (hrefs : List String) (to_visit : List String) : List String :=
  hrefs.foldl (fun acc href =>
    if href ≠ "" ∧ strEndsWith href ".pdf" then
      (if urljoin currentUrl href ∈ visited_links then acc
       else listPush acc (urljoin currentUrl href))
    else acc) to_visit

/-- The body of one non-skipped iteration (lines 79-119), entered after
`current_url` was popped and found not to be in `visited_links`: mark
visited, open a page, call the renderer; on failure record
`last_error` and continue (the page is not closed: `page.close()` sits
inside the `try` block and the `except` handler does not run it); on
success append the `Document`, push unvisited PDF links, close the
page, set `at_least_one_doc`, and yield the batch when it has reached
`batch_size`. -/
def processUrl (rdr : Renderer) (batch_size : Nat) (s : LoopState)
    (currentUrl : String) : LoopState :=
  let visited := currentUrl :: s.visited_links
  let evs := s.events ++ [CrawlEvent.pageOpen currentUrl, CrawlEvent.renderCall currentUrl]
  match rdr.render currentUrl with
  | Except.error e =>
      { s with visited_links := visited, events := evs,
               last_error := some (mkFetchError currentUrl e) }
  | Except.ok pg =>
      let doc_batch := listPush s.doc_batch (mkDocument currentUrl pg)
      let to_visit := pushPdfLinks currentUrl visited pg.hrefs s.to_visit
      let evs := evs ++ [CrawlEvent.pageClose currentUrl]
      if batch_size ≤ doc_batch.length then
        { s with visited_links := visited, to_visit := to_visit, doc_batch := [],
                 batches := s.batches ++ [doc_batch], events := evs,
                 at_least_one_doc := true }
      else
        { s with visited_links := visited, to_visit := to_visit, doc_batch := doc_batch,
                 events := evs, at_least_one_doc := true }

/-- The state after `current_url = to_visit.pop()` (lines 71, 76): the
iteration counter advanced, the remaining frontier installed, and the
ghost pop counter advanced. -/
def popState (s : LoopState) (rest : List String) : LoopState :=
  { s with loaded_count := s.loaded_count + 1, to_visit := rest, pops := s.pops + 1 }

/-- The `while to_visit:` loop (lines 70-119).  `fuel` is a ghost
argument driving structural recursion; the loop's own termination
argument is the page budget: every iteration increments
`loaded_count` and the loop breaks as soon as it exceeds
`MAX_PAGES_TO_VISIT`, so with the fuel supplied by `load_from_state`
the fuel never runs out (`crawlLoop_fuel_stable`).  The out-of-fuel
case is given the same form as the budget break, which is the only way
an iteration entered with `loaded_count ≥ MAX_PAGES_TO_VISIT` can end. -/
def crawlLoop (rdr : Renderer) (batch_size : Nat) : Nat → LoopState → LoopState
  | 0, s =>
    match listPop s.to_visit with
    | none => s
    | some _ => { s with loaded_count := s.loaded_count + 1 }
  | fuel + 1, s =>
    match listPop s.to_visit with
    | none => s
    | some (currentUrl, rest) =>
      if MAX_PAGES_TO_VISIT < s.loaded_count + 1 then
        { s with loaded_count := s.loaded_count + 1 }
      else
        if currentUrl ∈ s.visited_links then
          crawlLoop rdr batch_size fuel (popState s rest)
        else
          crawlLoop rdr batch_size fuel
            (processUrl rdr batch_size (popState s rest) currentUrl)

/-- The connector object: the attributes set by `__init__`
(lines 36-48). -/
structure GeorisquesConnector where
  base_url : String
  batch_size : Nat
  loaded_count : Nat
  to_visit_list : List String
deriving DecidableEq

/-- `GeorisquesConnector.__init__` (lines 36-48): stores the settings,
seeds `to_visit_list` with the base URL, and rejects any connector type
other than `"single"` with a `ValueError`. -/
def GeorisquesConnector.init (base_url : String)
    (georisques_connector_type : String) (batch_size : Nat) :
    Except String GeorisquesConnector :=
  if georisques_connector_type ≠ "single" then
    Except.error ("Only " ++ sq ++ "single" ++ sq ++
      " type is supported for this connector.")
  else
    Except.ok { base_url := base_url, batch_size := batch_size,
                loaded_count := 0, to_visit_list := [base_url] }

/-- The exceptions `load_from_state` can raise. -/
inductive RunError where
  /-- `raise ValueError(...)` (line 60). -/
  | valueError (msg : String) : RunError
  /-- `raise RuntimeError(...)` (lines 128-129). -/
  | runtimeError (msg : String) : RunError
deriving DecidableEq

/-- What one exhaustion of the `load_from_state` generator produces:
the batches it yielded (in order), the exception it raised at the end
if any, and the ghost observations (event trace, final visited set,
final per-run flags, pop count). -/
structure RunResult where
  batches : List (List Document)
  error : Option RunError
  events : List CrawlEvent
  visited_links : List String
  at_least_one_doc : Bool
  last_error : Option String
  pops : Nat
deriving DecidableEq

/-- The local run state set up at lines 56-68 of `load_from_state`,
before the loop is entered: empty visited set, the frontier copied from
`self.to_visit_list`, `loaded_count` copied from `self.loaded_count`,
empty batch buffer, flags cleared, and one `sessionStart` event for the
`start_playwright()` call at line 68. -/
def initState (to_visit : List String) (loaded_count : Nat) : LoopState :=
  { visited_links := [], to_visit := to_visit, loaded_count := loaded_count,
    doc_batch := [], at_least_one_doc := false, last_error := none,
    batches := [], events := [CrawlEvent.sessionStart], pops := 0 }

/-- The loop state after the `while` loop of a (nonempty-seed) run. -/
def finalState (conn : GeorisquesConnector) (rdr : Renderer) : LoopState :=
  crawlLoop rdr conn.batch_size (MAX_PAGES_TO_VISIT + 1)
    (initState conn.to_visit_list conn.loaded_count)

/-- `load_from_state` (lines 55-129), run to exhaustion.  The second
component of the result is `self` after the run: the method only ever
reads `self.batch_size`, `self.loaded_count` and `self.to_visit_list`
(copying the latter two into locals at lines 57 and 62) and contains no
assignment to any `self` attribute, so the post-state is rebuilt field
by field from the pre-state. -/
def GeorisquesConnector.load_from_state (conn : GeorisquesConnector)
    (rdr : Renderer) : RunResult × GeorisquesConnector :=
  let res : RunResult :=
    if conn.to_visit_list.isEmpty then
      { batches := [], error := some (RunError.valueError "No URLs to visit"),
        events := [], visited_links := [], at_least_one_doc := false,
        last_error := none, pops := 0 }
    else
      let sf := finalState conn rdr
      { batches := if sf.doc_batch.isEmpty then sf.batches
                   else sf.batches ++ [sf.doc_batch],
        error := if sf.at_least_one_doc then none
                 else
                   match sf.last_error with
                   | some e => some (RunError.runtimeError e)
                   | none => some (RunError.runtimeError "No valid pages found."),
        events := sf.events ++ [CrawlEvent.sessionStop],
        visited_links := sf.visited_links,
        at_least_one_doc := sf.at_least_one_doc,
        last_error := sf.last_error, pops := sf.pops }
  (res, { base_url := conn.base_url, batch_size := conn.batch_size,
          loaded_count := conn.loaded_count,
          to_visit_list := conn.to_visit_list })

/-- The `RunResult` of one exhaustion of the generator. -/
def runResult (conn : GeorisquesConnector) (rdr : Renderer) : RunResult :=
  (conn.load_from_state rdr).1

/-- Whether the renderer succeeds on a URL. -/
def okRender (rdr : Renderer) (u : String) : Bool :=
  match rdr.render u with
  | Except.ok _ => true
  | Except.error _ => false

/-- The documents produced by rendering a list of URLs in order,
keeping the successful renders. -/
def docsOf (rdr : Renderer) (urls : List String) : List Document :=
  urls.filterMap fun u =>
    match rdr.render u with
    | Except.ok pg => some (mkDocument u pg)
    | Except.error _ => none

/-- The invariant of the `while` loop that carries every run-level
property proved below: each `page.goto` call happens exactly when a URL
is added to `visited_links` (so the trace of render calls is the
visited list in insertion order), no URL is rendered twice, a page is
opened per render call and closed exactly for the successful ones, the
documents yielded so far plus the pending buffer are the documents of
the successful renders in order, `at_least_one_doc` records whether any
render succeeded, and (for a positive batch size) every yielded batch
is full while the pending buffer is not. -/
def LoopInv (rdr : Renderer) (bs : Nat) (s : LoopState) : Prop :=
  renderUrls s.events = s.visited_links.reverse ∧
  s.visited_links.Nodup ∧
  pageOpenUrls s.events = renderUrls s.events ∧
  pageCloseUrls s.events = (renderUrls s.events).filter (okRender rdr) ∧
  s.batches.flatten ++ s.doc_batch = docsOf rdr (renderUrls s.events) ∧
  s.at_least_one_doc = (renderUrls s.events).any (okRender rdr) ∧
  (1 ≤ bs → (∀ b ∈ s.batches, b.length = bs) ∧ s.doc_batch.length < bs)

section Fixtures

/-- A renderer for concrete test runs: the seed page renders with one
PDF link, the PDF URL fails to render, anything else renders with no
links. -/
def rdrSeedPdfFail : Renderer :=
  { render := fun u =>
      if u = "https://example.test/page.html" then
        Except.ok { title := some "Home", cleaned_text := "hello",
                    hrefs := ["doc.pdf"] }
      else if u = "https://example.test/doc.pdf" then
        Except.error "net::ERR_ABORTED"
      else
        Except.ok { title := none, cleaned_text := "other", hrefs := [] } }

/-- A connector whose seed is the page `rdrSeedPdfFail` succeeds on. -/
def connSeedPdfFail : GeorisquesConnector :=
  { base_url := "https://example.test/page.html", batch_size := 10,
    loaded_count := 0, to_visit_list := ["https://example.test/page.html"] }

/-- A renderer that fails on every URL. -/
def rdrAllFail : Renderer :=
  { render := fun _ => Except.error "timeout" }

/-- A connector with a single seed URL, used against `rdrAllFail`. -/
def connSingleSeed : GeorisquesConnector :=
  { base_url := "https://fail.test/only.html", batch_size := 10,
    loaded_count := 0, to_visit_list := ["https://fail.test/only.html"] }

/-- A renderer where the seed links to two PDFs and every URL renders. -/
def rdrThreeDocs : Renderer :=
  { render := fun u =>
      if u = "https://example.test/page.html" then
        Except.ok { title := some "Home", cleaned_text := "hello",
                    hrefs := ["a.pdf", "b.pdf"] }
      else
        Except.ok { title := none, cleaned_text := "other", hrefs := [] } }

/-- A connector with batch size 2, used against `rdrThreeDocs` to
produce three documents and hence two batches. -/
def connBatchTwo : GeorisquesConnector :=
  { base_url := "https://example.test/page.html", batch_size := 2,
    loaded_count := 0, to_visit_list := ["https://example.test/page.html"] }

/-- A connector whose seed list is empty (the frontier a run would
start from; `__init__` itself always seeds one URL, but the method
reads whatever `self.to_visit_list` holds). -/
def connEmptySeed : GeorisquesConnector :=
  { base_url := "https://example.test/page.html", batch_size := 10,
    loaded_count := 0, to_visit_list := [] }

/-- A renderer whose seed page carries a query-only href that ends in
`".pdf"`: its resolved target's path is the base page's path, which
does not end in `".pdf"`. -/
def rdrQueryPdf : Renderer :=
  { render := fun u =>
      if u = "https://example.test/index.html" then
        Except.ok { title := some "Home", cleaned_text := "hello",
                    hrefs := ["?file=report.pdf"] }
      else
        Except.ok { title := none, cleaned_text := "other", hrefs := [] } }

/-- The page data `rdrQueryPdf` returns for the seed page. -/
def pgQueryPdf : PageData :=
  { title := some "Home", cleaned_text := "hello",
    hrefs := ["?file=report.pdf"] }

/-- A connector seeded with the page `rdrQueryPdf` serves. -/
def connQueryPdf : GeorisquesConnector :=
  { base_url := "https://example.test/index.html", batch_size := 10,
    loaded_count := 0, to_visit_list := ["https://example.test/index.html"] }

/-- An arbitrary loop state over an empty frontier, used to witness the
loop-exit clause of the LIFO claim. -/
def emptyFrontierState : LoopState :=
  { visited_links := ["https://example.test/page.html"], to_visit := [],
    loaded_count := 5, doc_batch := [], at_least_one_doc := true,
    last_error := none, batches := [], events := [], pops := 1 }

end Fixtures

/-! ### Lemmas about the event-trace projections -/

@[simp] lemma renderUrls_nil : renderUrls [] = [] := rfl

@[simp] lemma renderUrls_append (l₁ l₂ : List CrawlEvent) :
    renderUrls (l₁ ++ l₂) = renderUrls l₁ ++ renderUrls l₂ :=
  List.filterMap_append ..

@[simp] lemma renderUrls_cons_sessionStart (l : List CrawlEvent) :
    renderUrls (CrawlEvent.sessionStart :: l) = renderUrls l := rfl

@[simp] lemma renderUrls_cons_sessionStop (l : List CrawlEvent) :
    renderUrls (CrawlEvent.sessionStop :: l) = renderUrls l := rfl

@[simp] lemma renderUrls_cons_pageOpen (u : String) (l : List CrawlEvent) :
    renderUrls (CrawlEvent.pageOpen u :: l) = renderUrls l := rfl

@[simp] lemma renderUrls_cons_pageClose (u : String) (l : List CrawlEvent) :
    renderUrls (CrawlEvent.pageClose u :: l) = renderUrls l := rfl

@[simp] lemma renderUrls_cons_renderCall (u : String) (l : List CrawlEvent) :
    renderUrls (CrawlEvent.renderCall u :: l) = u :: renderUrls l := rfl

@[simp] lemma pageOpenUrls_nil : pageOpenUrls [] = [] := rfl

@[simp] lemma pageOpenUrls_append (l₁ l₂ : List CrawlEvent) :
    pageOpenUrls (l₁ ++ l₂) = pageOpenUrls l₁ ++ pageOpenUrls l₂ :=
  List.filterMap_append ..

@[simp] lemma pageOpenUrls_cons_sessionStart (l : List CrawlEvent) :
    pageOpenUrls (CrawlEvent.sessionStart :: l) = pageOpenUrls l := rfl

@[simp] lemma pageOpenUrls_cons_sessionStop (l : List CrawlEvent) :
    pageOpenUrls (CrawlEvent.sessionStop :: l) = pageOpenUrls l := rfl

@[simp] lemma pageOpenUrls_cons_pageOpen (u : String) (l : List CrawlEvent) :
    pageOpenUrls (CrawlEvent.pageOpen u :: l) = u :: pageOpenUrls l := rfl

@[simp] lemma pageOpenUrls_cons_pageClose (u : String) (l : List CrawlEvent) :
    pageOpenUrls (CrawlEvent.pageClose u :: l) = pageOpenUrls l := rfl

@[simp] lemma pageOpenUrls_cons_renderCall (u : String) (l : List CrawlEvent) :
    pageOpenUrls (CrawlEvent.renderCall u :: l) = pageOpenUrls l := rfl

@[simp] lemma pageCloseUrls_nil : pageCloseUrls [] = [] := rfl

@[simp] lemma pageCloseUrls_append (l₁ l₂ : List CrawlEvent) :
    pageCloseUrls (l₁ ++ l₂) = pageCloseUrls l₁ ++ pageCloseUrls l₂ :=
  List.filterMap_append ..

@[simp] lemma pageCloseUrls_cons_sessionStart (l : List CrawlEvent) :
    pageCloseUrls (CrawlEvent.sessionStart :: l) = pageCloseUrls l := rfl

@[simp] lemma pageCloseUrls_cons_sessionStop (l : List CrawlEvent) :
    pageCloseUrls (CrawlEvent.sessionStop :: l) = pageCloseUrls l := rfl

@[simp] lemma pageCloseUrls_cons_pageOpen (u : String) (l : List CrawlEvent) :
    pageCloseUrls (CrawlEvent.pageOpen u :: l) = pageCloseUrls l := rfl

@[simp] lemma pageCloseUrls_cons_pageClose (u : String) (l : List CrawlEvent) :
    pageCloseUrls (CrawlEvent.pageClose u :: l) = u :: pageCloseUrls l := rfl

@[simp] lemma pageCloseUrls_cons_renderCall (u : String) (l : List CrawlEvent) :
    pageCloseUrls (CrawlEvent.renderCall u :: l) = pageCloseUrls l := rfl

/-! ### Lemmas about `docsOf` and `okRender` -/

@[simp] lemma docsOf_nil (rdr : Renderer) : docsOf rdr [] = [] := rfl

@[simp] lemma docsOf_append (rdr : Renderer) (l₁ l₂ : List String) :
    docsOf rdr (l₁ ++ l₂) = docsOf rdr l₁ ++ docsOf rdr l₂ :=
  List.filterMap_append ..

lemma docsOf_cons_ok {rdr : Renderer} {u : String} {pg : PageData}
    (rest : List String) (h : rdr.render u = Except.ok pg) :
    docsOf rdr (u :: rest) = mkDocument u pg :: docsOf rdr rest := by
  simp only [docsOf, List.filterMap_cons, h]

lemma docsOf_cons_error {rdr : Renderer} {u e : String}
    (rest : List String) (h : rdr.render u = Except.error e) :
    docsOf rdr (u :: rest) = docsOf rdr rest := by
  simp only [docsOf, List.filterMap_cons, h]

lemma docsOf_singleton_ok {rdr : Renderer} {u : String} {pg : PageData}
    (h : rdr.render u = Except.ok pg) :
    docsOf rdr [u] = [mkDocument u pg] := by
  rw [docsOf_cons_ok [] h]; rfl

lemma docsOf_singleton_error {rdr : Renderer} {u e : String}
    (h : rdr.render u = Except.error e) :
    docsOf rdr [u] = [] := by
  rw [docsOf_cons_error [] h]; rfl

lemma okRender_true_of_ok {rdr : Renderer} {u : String} {pg : PageData}
    (h : rdr.render u = Except.ok pg) : okRender rdr u = true := by
  simp [okRender, h]

lemma okRender_false_of_error {rdr : Renderer} {u e : String}
    (h : rdr.render u = Except.error e) : okRender rdr u = false := by
  simp [okRender, h]

/-- The ids of the documents of a URL list are exactly the successfully
rendered URLs, in order. -/
lemma docsOf_map_id (rdr : Renderer) (urls : List String) :
    (docsOf rdr urls).map (fun d => d.id) = urls.filter (okRender rdr) := by
  induction urls with
  | nil => rfl
  | cons u rest ih =>
    cases h : rdr.render u with
    | ok pg =>
      rw [docsOf_cons_ok rest h]
      simp [List.filter_cons, okRender_true_of_ok h, mkDocument, ih]
    | error e =>
      rw [docsOf_cons_error rest h]
      simp [List.filter_cons, okRender_false_of_error h, ih]

/-! ### The PDF-link loop -/

lemma pushPdfLinks_nil (cu : String) (vis tv : List String) :
    pushPdfLinks cu vis [] tv = tv := rfl

lemma pushPdfLinks_cons (cu : String) (vis : List String) (h : String)
    (rest tv : List String) :
    pushPdfLinks cu vis (h :: rest) tv =
      pushPdfLinks cu vis rest
        (if h ≠ "" ∧ strEndsWith h ".pdf" then
          (if urljoin cu h ∈ vis then tv else listPush tv (urljoin cu h))
         else tv) := rfl

/-- The PDF-link loop only appends to `to_visit`: it appends, in anchor
order, the resolution of each truthy href ending in `".pdf"` whose
resolved URL is not in the visited set. -/
lemma pushPdfLinks_eq_append (cu : String) (vis : List String)
    (hrefs tv : List String) :
    pushPdfLinks cu vis hrefs tv =
      tv ++ hrefs.filterMap (fun href =>
        if href ≠ "" ∧ strEndsWith href ".pdf" ∧ urljoin cu href ∉ vis
        then some (urljoin cu href) else none) := by
  induction hrefs generalizing tv with
  | nil => simp [pushPdfLinks_nil]
  | cons h rest ih =>
    rw [pushPdfLinks_cons]
    by_cases h1 : h ≠ "" ∧ strEndsWith h ".pdf"
    · by_cases h2 : urljoin cu h ∈ vis
      · rw [if_pos h1, if_pos h2, ih]
        have hno : ¬(h ≠ "" ∧ strEndsWith h ".pdf" ∧ urljoin cu h ∉ vis) := by
          tauto
        simp [List.filterMap_cons, hno]
      · rw [if_pos h1, if_neg h2, ih]
        have hyes : h ≠ "" ∧ strEndsWith h ".pdf" ∧ urljoin cu h ∉ vis :=
          ⟨h1.1, h1.2, h2⟩
        simp [List.filterMap_cons, hyes, listPush]
    · rw [if_neg h1, ih]
      have hno : ¬(h ≠ "" ∧ strEndsWith h ".pdf" ∧ urljoin cu h ∉ vis) := by
        tauto
      simp [List.filterMap_cons, hno]

/-- Membership characterisation of the PDF-link loop. -/
lemma mem_pushPdfLinks (cu : String) (vis : List String)
    (hrefs tv : List String) (url : String) :
    url ∈ pushPdfLinks cu vis hrefs tv ↔
      url ∈ tv ∨ ∃ href ∈ hrefs, href ≠ "" ∧ strEndsWith href ".pdf" ∧
        url = urljoin cu href ∧ url ∉ vis := by
  rw [pushPdfLinks_eq_append]
  simp only [List.mem_append, List.mem_filterMap]
  constructor
  · rintro (h | ⟨href, hm, hif⟩)
    · exact Or.inl h
    · rw [Option.ite_none_right_eq_some] at hif
      obtain ⟨⟨hne, hpdf, hnv⟩, heq⟩ := hif
      obtain heq2 := Option.some.inj heq
      exact Or.inr ⟨href, hm, hne, hpdf, heq2.symm, heq2 ▸ hnv⟩
  · rintro (h | ⟨href, hm, hne, hpdf, heq, hnv⟩)
    · exact Or.inl h
    · refine Or.inr ⟨href, hm, ?_⟩
      rw [Option.ite_none_right_eq_some]
      refine ⟨⟨hne, hpdf, heq ▸ hnv⟩, ?_⟩
      rw [heq]

/-! ### Shape of one processed iteration -/

lemma processUrl_error (rdr : Renderer) (bs : Nat) (s : LoopState)
    (u e : String) (h : rdr.render u = Except.error e) :
    processUrl rdr bs s u =
      { s with
          visited_links := u :: s.visited_links,
          events := s.events ++ [CrawlEvent.pageOpen u, CrawlEvent.renderCall u],
          last_error := some (mkFetchError u e) } := by
  simp [processUrl, h]

lemma processUrl_ok (rdr : Renderer) (bs : Nat) (s : LoopState)
    (u : String) (pg : PageData) (h : rdr.render u = Except.ok pg) :
    processUrl rdr bs s u =
      if bs ≤ s.doc_batch.length + 1 then
        { s with
            visited_links := u :: s.visited_links,
            to_visit := pushPdfLinks u (u :: s.visited_links) pg.hrefs s.to_visit,
            doc_batch := [],
            batches := s.batches ++ [s.doc_batch ++ [mkDocument u pg]],
            events := s.events ++ [CrawlEvent.pageOpen u,
              CrawlEvent.renderCall u, CrawlEvent.pageClose u],
            at_least_one_doc := true }
      else
        { s with
            visited_links := u :: s.visited_links,
            to_visit := pushPdfLinks u (u :: s.visited_links) pg.hrefs s.to_visit,
            doc_batch := s.doc_batch ++ [mkDocument u pg],
            events := s.events ++ [CrawlEvent.pageOpen u,
              CrawlEvent.renderCall u, CrawlEvent.pageClose u],
            at_least_one_doc := true } := by
  simp only [processUrl, h, listPush, List.length_append, List.length_cons,
    List.length_nil, List.append_assoc, List.cons_append, List.nil_append]

lemma processUrl_visited_eq (rdr : Renderer) (bs : Nat) (s : LoopState)
    (u : String) :
    (processUrl rdr bs s u).visited_links = u :: s.visited_links := by
  cases h : rdr.render u with
  | error e => rw [processUrl_error rdr bs s u e h]
  | ok pg => rw [processUrl_ok rdr bs s u pg h]; split <;> rfl

lemma processUrl_pops (rdr : Renderer) (bs : Nat) (s : LoopState)
    (u : String) : (processUrl rdr bs s u).pops = s.pops := by
  cases h : rdr.render u with
  | error e => rw [processUrl_error rdr bs s u e h]
  | ok pg => rw [processUrl_ok rdr bs s u pg h]; split <;> rfl

lemma processUrl_loaded_count (rdr : Renderer) (bs : Nat) (s : LoopState)
    (u : String) : (processUrl rdr bs s u).loaded_count = s.loaded_count := by
  cases h : rdr.render u with
  | error e => rw [processUrl_error rdr bs s u e h]
  | ok pg => rw [processUrl_ok rdr bs s u pg h]; split <;> rfl

lemma processUrl_to_visit_ok (rdr : Renderer) (bs : Nat) (s : LoopState)
    (u : String) (pg : PageData) (h : rdr.render u = Except.ok pg) :
    (processUrl rdr bs s u).to_visit =
      pushPdfLinks u (u :: s.visited_links) pg.hrefs s.to_visit := by
  rw [processUrl_ok rdr bs s u pg h]; split <;> rfl

/-- One processed iteration preserves the loop invariant, provided the
URL was not yet visited (which the skip check of the loop guarantees). -/
lemma processUrl_inv (rdr : Renderer) (bs : Nat) (s : LoopState)
    (u : String) (hu : u ∉ s.visited_links) (hs : LoopInv rdr bs s) :
    LoopInv rdr bs (processUrl rdr bs s u) := by
  obtain ⟨h1, h2, h3, h4, h5, h6, h7⟩ := hs
  cases hr : rdr.render u with
  | error e =>
    rw [processUrl_error rdr bs s u e hr]
    refine ⟨?_, ?_, ?_, ?_, ?_, ?_, h7⟩
    · simp [h1]
    · simp [List.nodup_cons, hu, h2]
    · simp [h3]
    · simp [h4, List.filter_append, List.filter_cons,
        okRender_false_of_error hr]
    · simp [h5, docsOf_singleton_error hr]
    · simp [h6, List.any_append, okRender_false_of_error hr]
  | ok pg =>
    rw [processUrl_ok rdr bs s u pg hr]
    split
    case isTrue hc =>
      refine ⟨?_, ?_, ?_, ?_, ?_, ?_, ?_⟩
      · simp [h1]
      · simp [List.nodup_cons, hu, h2]
      · simp [h3]
      · simp [h4, List.filter_append, List.filter_cons,
          okRender_true_of_ok hr]
      · simp [docsOf_singleton_ok hr]
        rw [← List.append_assoc, h5]
      · simp [List.any_append, okRender_true_of_ok hr]
      · intro hbs
        obtain ⟨hball, hdb⟩ := h7 hbs
        refine ⟨?_, hbs⟩
        intro b hb
        rcases List.mem_append.mp hb with hb | hb
        · exact hball b hb
        · rcases List.mem_singleton.mp hb with rfl
          simp only [List.length_append, List.length_cons, List.length_nil]
          omega
    case isFalse hc =>
      refine ⟨?_, ?_, ?_, ?_, ?_, ?_, ?_⟩
      · simp [h1]
      · simp [List.nodup_cons, hu, h2]
      · simp [h3]
      · simp [h4, List.filter_append, List.filter_cons,
          okRender_true_of_ok hr]
      · simp [docsOf_singleton_ok hr]
        rw [← List.append_assoc, h5]
      · simp [List.any_append, okRender_true_of_ok hr]
      · intro hbs
        obtain ⟨hball, hdb⟩ := h7 hbs
        refine ⟨hball, ?_⟩
        simp only [List.length_append, List.length_cons, List.length_nil]
        omega

/-! ### The crawl loop -/

lemma crawlLoop_zero (rdr : Renderer) (bs : Nat) (s : LoopState) :
    crawlLoop rdr bs 0 s =
      match listPop s.to_visit with
      | none => s
      | some _ => { s with loaded_count := s.loaded_count + 1 } := rfl

lemma crawlLoop_succ (rdr : Renderer) (bs fuel : Nat) (s : LoopState) :
    crawlLoop rdr bs (fuel + 1) s =
      match listPop s.to_visit with
      | none => s
      | some (currentUrl, rest) =>
        if MAX_PAGES_TO_VISIT < s.loaded_count + 1 then
          { s with loaded_count := s.loaded_count + 1 }
        else
          if currentUrl ∈ s.visited_links then
            crawlLoop rdr bs fuel (popState s rest)
          else
            crawlLoop rdr bs fuel
              (processUrl rdr bs (popState s rest) currentUrl) := rfl

/-- The loop can only grow the visited set. -/
lemma crawlLoop_visited_suffix (rdr : Renderer) (bs : Nat) :
    ∀ (fuel : Nat) (s : LoopState),
      s.visited_links <:+ (crawlLoop rdr bs fuel s).visited_links := by
  intro fuel
  induction fuel with
  | zero =>
    intro s
    rw [crawlLoop_zero]
    cases hp : listPop s.to_visit with
    | none => exact List.suffix_refl _
    | some p => exact List.suffix_refl _
  | succ fuel ih =>
    intro s
    rw [crawlLoop_succ]
    cases hp : listPop s.to_visit with
    | none => exact List.suffix_refl _
    | some p =>
      obtain ⟨currentUrl, rest⟩ := p
      dsimp only []
      by_cases hb : MAX_PAGES_TO_VISIT < s.loaded_count + 1
      · rw [if_pos hb]
      · rw [if_neg hb]
        by_cases hv : currentUrl ∈ s.visited_links
        · rw [if_pos hv]
          exact ih (popState s rest)
        · rw [if_neg hv]
          refine List.IsSuffix.trans ?_
            (ih (processUrl rdr bs (popState s rest) currentUrl))
          rw [processUrl_visited_eq]
          exact List.suffix_cons _ _

/-- The loop preserves the loop invariant. -/
lemma crawlLoop_inv (rdr : Renderer) (bs : Nat) :
    ∀ (fuel : Nat) (s : LoopState), LoopInv rdr bs s →
      LoopInv rdr bs (crawlLoop rdr bs fuel s) := by
  intro fuel
  induction fuel with
  | zero =>
    intro s hs
    rw [crawlLoop_zero]
    cases hp : listPop s.to_visit with
    | none => exact hs
    | some p => exact hs
  | succ fuel ih =>
    intro s hs
    rw [crawlLoop_succ]
    cases hp : listPop s.to_visit with
    | none => exact hs
    | some p =>
      obtain ⟨currentUrl, rest⟩ := p
      dsimp only []
      by_cases hb : MAX_PAGES_TO_VISIT < s.loaded_count + 1
      · rw [if_pos hb]
        exact hs
      · rw [if_neg hb]
        by_cases hv : currentUrl ∈ s.visited_links
        · rw [if_pos hv]
          exact ih (popState s rest) hs
        · rw [if_neg hv]
          exact ih (processUrl rdr bs (popState s rest) currentUrl)
            (processUrl_inv rdr bs (popState s rest) currentUrl hv hs)

/-- The pop counter of the loop can only advance to the page budget:
at most `MAX_PAGES_TO_VISIT - loaded_count` further pops happen. -/
lemma crawlLoop_pops_le (rdr : Renderer) (bs : Nat) :
    ∀ (fuel : Nat) (s : LoopState),
      (crawlLoop rdr bs fuel s).pops ≤
        s.pops + (MAX_PAGES_TO_VISIT - s.loaded_count) := by
  intro fuel
  induction fuel with
  | zero =>
    intro s
    rw [crawlLoop_zero]
    cases hp : listPop s.to_visit with
    | none =>
      show s.pops ≤ s.pops + (MAX_PAGES_TO_VISIT - s.loaded_count)
      omega
    | some p =>
      show s.pops ≤ s.pops + (MAX_PAGES_TO_VISIT - s.loaded_count)
      omega
  | succ fuel ih =>
    intro s
    rw [crawlLoop_succ]
    cases hp : listPop s.to_visit with
    | none =>
      show s.pops ≤ s.pops + (MAX_PAGES_TO_VISIT - s.loaded_count)
      omega
    | some p =>
      obtain ⟨currentUrl, rest⟩ := p
      dsimp only []
      by_cases hb : MAX_PAGES_TO_VISIT < s.loaded_count + 1
      · rw [if_pos hb]
        show s.pops ≤ s.pops + (MAX_PAGES_TO_VISIT - s.loaded_count)
        omega
      · rw [if_neg hb]
        by_cases hv : currentUrl ∈ s.visited_links
        · rw [if_pos hv]
          have h : (crawlLoop rdr bs fuel (popState s rest)).pops ≤
              (s.pops + 1) + (MAX_PAGES_TO_VISIT - (s.loaded_count + 1)) :=
            ih (popState s rest)
          omega
        · rw [if_neg hv]
          have h3 : (crawlLoop rdr bs fuel
              (processUrl rdr bs (popState s rest) currentUrl)).pops ≤
              (s.pops + 1) + (MAX_PAGES_TO_VISIT - (s.loaded_count + 1)) := by
            have h := ih (processUrl rdr bs (popState s rest) currentUrl)
            rw [processUrl_pops, processUrl_loaded_count] at h
            exact h
          omega

/-- Adding fuel past `MAX_PAGES_TO_VISIT + 1 - loaded_count` does not
change the loop's result: the fuel argument is ghost and the fuel
supplied by `load_from_state` computes the value of the unbounded
`while` loop, whose termination is enforced by the page budget alone. -/
lemma crawlLoop_fuel_stable (rdr : Renderer) (bs : Nat) :
    ∀ (fuel : Nat) (s : LoopState),
      MAX_PAGES_TO_VISIT + 1 ≤ s.loaded_count + fuel →
      crawlLoop rdr bs (fuel + 1) s = crawlLoop rdr bs fuel s := by
  intro fuel
  induction fuel with
  | zero =>
    intro s h
    rw [crawlLoop_succ, crawlLoop_zero]
    cases hp : listPop s.to_visit with
    | none => rfl
    | some p =>
      obtain ⟨currentUrl, rest⟩ := p
      dsimp only []
      rw [if_pos (by omega)]
  | succ fuel ih =>
    intro s h
    rw [crawlLoop_succ rdr bs (fuel + 1) s, crawlLoop_succ rdr bs fuel s]
    cases hp : listPop s.to_visit with
    | none => rfl
    | some p =>
      obtain ⟨currentUrl, rest⟩ := p
      dsimp only []
      by_cases hb : MAX_PAGES_TO_VISIT < s.loaded_count + 1
      · simp only [if_pos hb]
      · simp only [if_neg hb]
        by_cases hv : currentUrl ∈ s.visited_links
        · simp only [if_pos hv]
          exact ih (popState s rest) (by simp only [popState]; omega)
        · simp only [if_neg hv]
          refine ih (processUrl rdr bs (popState s rest) currentUrl) ?_
          rw [processUrl_loaded_count]
          simp only [popState]
          omega

/-! ### Run-level lemmas -/

/-- The loop invariant holds when the loop is entered. -/
lemma LoopInv_initState (rdr : Renderer) (bs : Nat) (tv : List String)
    (lc : Nat) : LoopInv rdr bs (initState tv lc) := by
  refine ⟨rfl, List.nodup_nil, rfl, rfl, rfl, rfl, ?_⟩
  intro hbs
  exact ⟨by simp [initState], by simpa [initState] using hbs⟩

/-- The loop invariant holds for the final state of any run. -/
lemma finalState_inv (conn : GeorisquesConnector) (rdr : Renderer) :
    LoopInv rdr conn.batch_size (finalState conn rdr) :=
  crawlLoop_inv rdr conn.batch_size (MAX_PAGES_TO_VISIT + 1)
    (initState conn.to_visit_list conn.loaded_count)
    (LoopInv_initState rdr conn.batch_size conn.to_visit_list conn.loaded_count)

lemma isEmpty_false_of_ne {l : List String} (h : l ≠ []) :
    l.isEmpty = false := by
  cases l with
  | nil => exact absurd rfl h
  | cons a t => rfl

lemma runResult_events (conn : GeorisquesConnector) (rdr : Renderer)
    (h : conn.to_visit_list ≠ []) :
    (runResult conn rdr).events =
      (finalState conn rdr).events ++ [CrawlEvent.sessionStop] := by
  simp [runResult, GeorisquesConnector.load_from_state, isEmpty_false_of_ne h]

lemma runResult_visited (conn : GeorisquesConnector) (rdr : Renderer)
    (h : conn.to_visit_list ≠ []) :
    (runResult conn rdr).visited_links = (finalState conn rdr).visited_links := by
  simp [runResult, GeorisquesConnector.load_from_state, isEmpty_false_of_ne h]

lemma runResult_batches (conn : GeorisquesConnector) (rdr : Renderer)
    (h : conn.to_visit_list ≠ []) :
    (runResult conn rdr).batches =
      if (finalState conn rdr).doc_batch.isEmpty then (finalState conn rdr).batches
      else (finalState conn rdr).batches ++ [(finalState conn rdr).doc_batch] := by
  simp only [runResult, GeorisquesConnector.load_from_state,
    isEmpty_false_of_ne h, Bool.false_eq_true, if_false]

lemma runResult_alod (conn : GeorisquesConnector) (rdr : Renderer)
    (h : conn.to_visit_list ≠ []) :
    (runResult conn rdr).at_least_one_doc =
      (finalState conn rdr).at_least_one_doc := by
  simp [runResult, GeorisquesConnector.load_from_state, isEmpty_false_of_ne h]

lemma runResult_last_error (conn : GeorisquesConnector) (rdr : Renderer)
    (h : conn.to_visit_list ≠ []) :
    (runResult conn rdr).last_error = (finalState conn rdr).last_error := by
  simp [runResult, GeorisquesConnector.load_from_state, isEmpty_false_of_ne h]

lemma runResult_pops (conn : GeorisquesConnector) (rdr : Renderer)
    (h : conn.to_visit_list ≠ []) :
    (runResult conn rdr).pops = (finalState conn rdr).pops := by
  simp [runResult, GeorisquesConnector.load_from_state, isEmpty_false_of_ne h]

lemma runResult_error (conn : GeorisquesConnector) (rdr : Renderer)
    (h : conn.to_visit_list ≠ []) :
    (runResult conn rdr).error =
      (if (finalState conn rdr).at_least_one_doc then none
       else
         match (finalState conn rdr).last_error with
         | some e => some (RunError.runtimeError e)
         | none => some (RunError.runtimeError "No valid pages found.")) := by
  simp only [runResult, GeorisquesConnector.load_from_state,
    isEmpty_false_of_ne h, Bool.false_eq_true, if_false]

/-! ### Arithmetic helpers for batch counting -/

lemma flatten_length_const {α : Type} (B : List (List α)) (n : Nat)
    (h : ∀ b ∈ B, b.length = n) : B.flatten.length = B.length * n := by
  induction B with
  | nil => simp
  | cons b B ih =>
    simp only [List.flatten_cons, List.length_append, List.length_cons]
    rw [h b (List.mem_cons_self b B),
      ih (fun x hx => h x (List.mem_cons_of_mem b hx))]
    ring

lemma ceil_div_exact (k bs : Nat) (hbs : 1 ≤ bs) :
    (k * bs + bs - 1) / bs = k := by
  obtain ⟨b2, rfl⟩ : ∃ b2, bs = b2 + 1 := ⟨bs - 1, by omega⟩
  have e : k * (b2 + 1) + (b2 + 1) - 1 = b2 + (b2 + 1) * k := by
    have e2 : k * (b2 + 1) + (b2 + 1) - 1 = k * (b2 + 1) + b2 := by omega
    rw [e2]; ring
  rw [e, Nat.add_mul_div_left _ _ (by omega : 0 < b2 + 1),
    Nat.div_eq_of_lt (by omega)]
  omega

lemma ceil_div_rem (k m bs : Nat) (hbs : 1 ≤ bs) (h1 : 1 ≤ m)
    (h2 : m < bs) : (k * bs + m + bs - 1) / bs = k + 1 := by
  obtain ⟨m2, rfl⟩ : ∃ m2, m = m2 + 1 := ⟨m - 1, by omega⟩
  have e : k * bs + (m2 + 1) + bs - 1 = m2 + bs * (k + 1) := by
    have e2 : k * bs + (m2 + 1) + bs - 1 = k * bs + m2 + bs := by omega
    rw [e2]; ring
  rw [e, Nat.add_mul_div_left _ _ (by omega : 0 < bs),
    Nat.div_eq_of_lt (by omega)]
  omega

lemma mem_of_mem_dropLast {α : Type} {l : List α} {a : α}
    (h : a ∈ l.dropLast) : a ∈ l :=
  List.Sublist.subset (List.dropLast_sublist l) h

/-- A duplicate-free list of length at least two has, for any `u`, a
member different from `u`. -/
lemma exists_mem_ne {l : List String} (hn : l.Nodup) (h2 : 2 ≤ l.length)
    (u : String) : ∃ v ∈ l, v ≠ u := by
  match l, hn, h2 with
  | a :: b :: t, hn, h2 =>
    have hab : a ≠ b := by
      have := List.nodup_cons.mp hn
      intro hab
      exact this.1 (hab ▸ List.mem_cons_self b t)
    by_cases hau : a = u
    · exact ⟨b, List.mem_cons_of_mem a (List.mem_cons_self b t),
        fun hbu => hab (hau.trans hbu.symm)⟩
    · exact ⟨a, List.mem_cons_self a (b :: t), hau⟩

/-- The concatenation of all yielded batches (final flush included) is
the list of documents of the successful renders, in order. -/
lemma runResult_flatten (conn : GeorisquesConnector) (rdr : Renderer) :
    (runResult conn rdr).batches.flatten =
      docsOf rdr (renderUrls (runResult conn rdr).events) := by
  by_cases hne : conn.to_visit_list = []
  · simp [runResult, GeorisquesConnector.load_from_state, hne]
  · obtain ⟨i1, i2, i3, i4, i5, i6, i7⟩ := finalState_inv conn rdr
    rw [runResult_batches conn rdr hne, runResult_events conn rdr hne]
    simp only [renderUrls_append, renderUrls_cons_sessionStop, renderUrls_nil,
      List.append_nil]
    by_cases hdbe : (finalState conn rdr).doc_batch.isEmpty
    · rw [if_pos hdbe]
      have hnil : (finalState conn rdr).doc_batch = [] := by
        simpa using hdbe
      rw [hnil, List.append_nil] at i5
      exact i5
    · rw [if_neg hdbe]
      rw [List.flatten_append]
      simpa using i5

/-! ### The claims -/

/-- Claim C1: for every run of `load_from_state`, no URL is passed to
the renderer (`page.goto`) more than once: the trace of render calls is
duplicate-free and is exactly the visited set in insertion order (every
fetched URL is added to the visited set at the fetch, a popped URL
already in the visited set is skipped without a render call), so at run
end the number of render calls equals the size of the visited set; and
the visited set only grows during the run. -/
theorem no_duplicate_fetch (conn : GeorisquesConnector) (rdr : Renderer) :
    (renderUrls (runResult conn rdr).events).Nodup ∧
    renderUrls (runResult conn rdr).events =
      (runResult conn rdr).visited_links.reverse ∧
    (renderUrls (runResult conn rdr).events).length =
      (runResult conn rdr).visited_links.length ∧
    (∀ (bs fuel : Nat) (s : LoopState),
      s.visited_links <:+ (crawlLoop rdr bs fuel s).visited_links) := by
  by_cases hne : conn.to_visit_list = []
  · refine ⟨?_, ?_, ?_, fun bs fuel s => crawlLoop_visited_suffix rdr bs fuel s⟩ <;>
      simp [runResult, GeorisquesConnector.load_from_state, hne]
  · obtain ⟨i1, i2, i3, i4, i5, i6, i7⟩ := finalState_inv conn rdr
    have he := runResult_events conn rdr hne
    have hv := runResult_visited conn rdr hne
    have hru : renderUrls (runResult conn rdr).events =
        renderUrls (finalState conn rdr).events := by
      rw [he]
      simp
    refine ⟨?_, ?_, ?_, fun bs fuel s => crawlLoop_visited_suffix rdr bs fuel s⟩
    · rw [hru, i1]
      exact List.nodup_reverse.mpr i2
    · rw [hru, hv, i1]
    · rw [hru, hv, i1, List.length_reverse]

/-- Claim C2: for every run started with the `loaded_count` that
`__init__` sets (zero), the loop performs at most
`MAX_PAGES_TO_VISIT = 1000` pop-and-process iterations, whatever the
frontier does; termination itself holds by construction, the loop being
a total function whose recursion is bounded by the page budget
(`crawlLoop_fuel_stable`). -/
theorem budget_enforced (conn : GeorisquesConnector) (rdr : Renderer)
    (h0 : conn.loaded_count = 0) :
    (runResult conn rdr).pops ≤ MAX_PAGES_TO_VISIT := by
  by_cases hne : conn.to_visit_list = []
  · simp [runResult, GeorisquesConnector.load_from_state, hne]
  · rw [runResult_pops conn rdr hne]
    have h2 : (finalState conn rdr).pops ≤
        0 + (MAX_PAGES_TO_VISIT - conn.loaded_count) :=
      crawlLoop_pops_le rdr conn.batch_size (MAX_PAGES_TO_VISIT + 1)
        (initState conn.to_visit_list conn.loaded_count)
    omega

/-- Witness for C2 at a concrete connector freshly constructed with
`loaded_count = 0`. -/
theorem budget_enforced_witness :
    (runResult connSingleSeed rdrAllFail).pops ≤ MAX_PAGES_TO_VISIT :=
  budget_enforced connSingleSeed rdrAllFail rfl

/-- Claim C7: a run started with an empty seed frontier fails
immediately with the configuration `ValueError` and performs zero
collaborator calls: no renderer session is acquired (the event trace is
empty, in particular it has no `sessionStart`) and nothing is yielded. -/
theorem empty_seed_fails_fast (conn : GeorisquesConnector) (rdr : Renderer)
    (h : conn.to_visit_list = []) :
    (runResult conn rdr).error = some (RunError.valueError "No URLs to visit") ∧
    (runResult conn rdr).events = [] ∧
    (runResult conn rdr).events.count CrawlEvent.sessionStart = 0 ∧
    (runResult conn rdr).batches = [] := by
  refine ⟨?_, ?_, ?_, ?_⟩ <;>
    simp [runResult, GeorisquesConnector.load_from_state, h]

/-- Witness for C7 at a concrete connector with an empty seed list. -/
theorem empty_seed_fails_fast_witness :
    (runResult connEmptySeed rdrAllFail).error =
      some (RunError.valueError "No URLs to visit") ∧
    (runResult connEmptySeed rdrAllFail).events = [] ∧
    (runResult connEmptySeed rdrAllFail).events.count
      CrawlEvent.sessionStart = 0 ∧
    (runResult connEmptySeed rdrAllFail).batches = [] :=
  empty_seed_fails_fast connEmptySeed rdrAllFail rfl

/-- Claim C9: the frontier is a LIFO stack: popping after a push
returns the pushed URL and the stack as it was before the push (the
traversal therefore expands depth-first), and popping an empty frontier
signals empty, upon which the crawl loop exits unchanged. -/
theorem frontier_lifo :
    (∀ (l : List String) (x : String), listPop (listPush l x) = some (x, l)) ∧
    listPop ([] : List String) = none ∧
    (∀ (rdr : Renderer) (bs fuel : Nat) (s : LoopState), s.to_visit = [] →
      crawlLoop rdr bs fuel s = s) := by
  refine ⟨?_, rfl, ?_⟩
  · intro l x
    simp [listPop, listPush]
  · intro rdr bs fuel s h
    have hp : listPop s.to_visit = none := by rw [h]; rfl
    cases fuel with
    | zero => rw [crawlLoop_zero, hp]
    | succ fuel => rw [crawlLoop_succ, hp]

/-- Witness for C9: a concrete push-then-pop and a concrete loop exit
on an empty frontier. -/
theorem frontier_lifo_witness :
    listPop (listPush ["https://a.test/x"] "https://a.test/y") =
      some ("https://a.test/y", ["https://a.test/x"]) ∧
    crawlLoop rdrAllFail 5 7 emptyFrontierState = emptyFrontierState :=
  ⟨frontier_lifo.1 ["https://a.test/x"] "https://a.test/y",
   frontier_lifo.2.2 rdrAllFail 5 7 emptyFrontierState rfl⟩

/-- Claim C10: a run never mutates the connector object: after any run
the four attributes equal their pre-run values (the method works on a
copy of `to_visit_list` and a local `loaded_count`), and a second run
of the same connector produces the same result as the first. -/
theorem run_does_not_mutate_connector (conn : GeorisquesConnector)
    (rdr : Renderer) :
    (conn.load_from_state rdr).2.base_url = conn.base_url ∧
    (conn.load_from_state rdr).2.batch_size = conn.batch_size ∧
    (conn.load_from_state rdr).2.loaded_count = conn.loaded_count ∧
    (conn.load_from_state rdr).2.to_visit_list = conn.to_visit_list ∧
    (conn.load_from_state rdr).2 = conn ∧
    ((conn.load_from_state rdr).2).load_from_state rdr =
      conn.load_from_state rdr :=
  ⟨rfl, rfl, rfl, rfl, rfl, rfl⟩

/-- Claim C4 (amended): a page opened by an iteration is closed before
the next iteration exactly when the render/extract/append steps of that
iteration succeed; `page.close()` sits inside the `try` block, so a
failing iteration leaves its page open (until the whole session is
stopped at run end).  Formally: one page is opened per render call, and
the closed pages are exactly the successfully rendered ones, in order. -/
theorem page_closed_iff_render_succeeded (conn : GeorisquesConnector)
    (rdr : Renderer) :
    pageOpenUrls (runResult conn rdr).events =
      renderUrls (runResult conn rdr).events ∧
    pageCloseUrls (runResult conn rdr).events =
      (pageOpenUrls (runResult conn rdr).events).filter (okRender rdr) := by
  by_cases hne : conn.to_visit_list = []
  · constructor <;> simp [runResult, GeorisquesConnector.load_from_state, hne]
  · obtain ⟨i1, i2, i3, i4, i5, i6, i7⟩ := finalState_inv conn rdr
    have he := runResult_events conn rdr hne
    constructor
    · rw [he]
      simpa using i3
    · rw [he]
      simp only [pageCloseUrls_append, pageOpenUrls_append,
        pageCloseUrls_cons_sessionStop, pageOpenUrls_cons_sessionStop,
        pageCloseUrls_nil, pageOpenUrls_nil, List.append_nil]
      rw [i4, i3]

/-- Counterexample to claim C4 as stated: in the concrete run whose
single URL fails to render, the iteration opens a page
(`context.new_page()`) but `page.close()` is never called — the claim
that the page resource is released unconditionally before the next
iteration is false on the code. -/
theorem page_left_open_on_render_failure :
    pageOpenUrls (runResult connSingleSeed rdrAllFail).events =
      ["https://fail.test/only.html"] ∧
    pageCloseUrls (runResult connSingleSeed rdrAllFail).events = [] :=
  ⟨rfl, rfl⟩

/-- Claim C6: a run over a nonempty seed frontier that ends with
`at_least_one_doc` false raises `RuntimeError` with the recorded
`last_error` message when one exists and with the generic
`"No valid pages found."` message otherwise; a run that produced at
least one document never raises at end of run. -/
theorem zero_doc_run_raises (conn : GeorisquesConnector) (rdr : Renderer)
    (hne : conn.to_visit_list ≠ []) :
    ((runResult conn rdr).at_least_one_doc = false →
      ∀ e, (runResult conn rdr).last_error = some e →
        (runResult conn rdr).error = some (RunError.runtimeError e)) ∧
    ((runResult conn rdr).at_least_one_doc = false →
      (runResult conn rdr).last_error = none →
      (runResult conn rdr).error =
        some (RunError.runtimeError "No valid pages found.")) ∧
    ((runResult conn rdr).at_least_one_doc = true →
      (runResult conn rdr).error = none) := by
  have ha := runResult_alod conn rdr hne
  have hl := runResult_last_error conn rdr hne
  have he := runResult_error conn rdr hne
  refine ⟨?_, ?_, ?_⟩
  · intro hfalse e hsome
    rw [ha] at hfalse
    rw [hl] at hsome
    rw [he, hfalse, hsome]
    rfl
  · intro hfalse hnone
    rw [ha] at hfalse
    rw [hl] at hnone
    rw [he, hfalse, hnone]
    rfl
  · intro htrue
    rw [ha] at htrue
    rw [he, htrue]
    rfl

/-- Witness for C6: the all-failure run over one seed URL raises the
recorded render error. -/
theorem zero_doc_run_raises_witness :
    connSingleSeed.to_visit_list ≠ [] ∧
    (runResult connSingleSeed rdrAllFail).error =
      some (RunError.runtimeError
        (mkFetchError "https://fail.test/only.html" "timeout")) :=
  ⟨by decide,
   (zero_doc_run_raises connSingleSeed rdrAllFail (by decide)).1 rfl
     (mkFetchError "https://fail.test/only.html" "timeout") rfl⟩

/-- Claim C3: a per-page rendering failure is caught inside its own
iteration and the loop continues.  If rendering fails for exactly one
URL `u` among the `K ≥ 2` URLs reached by the run, the run succeeds
(no end-of-run error) and yields documents for exactly the other
`K - 1` URLs, in traversal order. -/
theorem partial_failure_isolation (conn : GeorisquesConnector)
    (rdr : Renderer) (u : String)
    (hmem : u ∈ renderUrls (runResult conn rdr).events)
    (honly : ∀ v ∈ renderUrls (runResult conn rdr).events,
      (okRender rdr v = false ↔ v = u))
    (hK : 2 ≤ (renderUrls (runResult conn rdr).events).length) :
    (runResult conn rdr).error = none ∧
    ((runResult conn rdr).batches.flatten.map fun d => d.id) =
      (renderUrls (runResult conn rdr).events).filter (fun v => v != u) := by
  have hne : conn.to_visit_list ≠ [] := by
    intro h
    simp [runResult, GeorisquesConnector.load_from_state, h] at hK
  obtain ⟨i1, i2, i3, i4, i5, i6, i7⟩ := finalState_inv conn rdr
  have he := runResult_events conn rdr hne
  have hru : renderUrls (runResult conn rdr).events =
      renderUrls (finalState conn rdr).events := by
    rw [he]
    simp
  have hnd : (renderUrls (runResult conn rdr).events).Nodup := by
    rw [hru, i1]
    exact List.nodup_reverse.mpr i2
  obtain ⟨v, hvmem, hvne⟩ := exists_mem_ne hnd hK u
  have hvok : okRender rdr v = true := by
    cases hok : okRender rdr v with
    | false => exact absurd ((honly v hvmem).mp hok) hvne
    | true => rfl
  have halod : (finalState conn rdr).at_least_one_doc = true := by
    rw [i6, List.any_eq_true]
    exact ⟨v, by rwa [hru] at hvmem, hvok⟩
  constructor
  · rw [runResult_error conn rdr hne, halod]
    rfl
  · rw [runResult_flatten conn rdr, docsOf_map_id]
    refine List.filter_congr ?_
    intro w hw
    cases hok : okRender rdr w with
    | false =>
      have hwu : w = u := (honly w hw).mp hok
      subst hwu
      simp
    | true =>
      have hwu : w ≠ u := by
        intro hwu
        have hfalse := (honly w hw).mpr hwu
        rw [hfalse] at hok
        cases hok
      simp [hwu]

/-- Witness for C3: the seed page renders and links to one PDF URL,
whose render fails; the run succeeds and yields exactly the seed
document. -/
theorem partial_failure_isolation_witness :
    (runResult connSeedPdfFail rdrSeedPdfFail).error = none ∧
    ((runResult connSeedPdfFail rdrSeedPdfFail).batches.flatten.map
      fun d => d.id) =
      (renderUrls (runResult connSeedPdfFail rdrSeedPdfFail).events).filter
        (fun v => v != "https://example.test/doc.pdf") :=
  partial_failure_isolation connSeedPdfFail rdrSeedPdfFail
    "https://example.test/doc.pdf" (by decide) (by decide) (by decide)

/-- Claim C5: for a batch size `B ≥ 1` and a run producing `D > 0`
documents, exactly `⌈D / B⌉` batches are yielded, every yielded batch
but possibly the last has size exactly `B`, and the concatenation of
the yielded batches (in order) is the full document sequence in
production order (the documents of the successful renders). -/
theorem batch_boundaries (conn : GeorisquesConnector) (rdr : Renderer)
    (hbs : 1 ≤ conn.batch_size)
    (hD : (runResult conn rdr).batches.flatten ≠ []) :
    (runResult conn rdr).batches.length =
      ((runResult conn rdr).batches.flatten.length + conn.batch_size - 1) /
        conn.batch_size ∧
    (∀ b ∈ (runResult conn rdr).batches.dropLast,
      b.length = conn.batch_size) ∧
    (runResult conn rdr).batches.flatten =
      docsOf rdr (renderUrls (runResult conn rdr).events) := by
  have hne : conn.to_visit_list ≠ [] := by
    intro h
    apply hD
    simp [runResult, GeorisquesConnector.load_from_state, h]
  obtain ⟨i1, i2, i3, i4, i5, i6, i7⟩ := finalState_inv conn rdr
  obtain ⟨hball, hdb⟩ := i7 hbs
  have hb := runResult_batches conn rdr hne
  refine ⟨?_, ?_, runResult_flatten conn rdr⟩
  · by_cases hdbe : (finalState conn rdr).doc_batch.isEmpty
    · have hbb : (runResult conn rdr).batches = (finalState conn rdr).batches := by
        rw [hb, if_pos hdbe]
      rw [hbb, flatten_length_const (finalState conn rdr).batches
        conn.batch_size hball]
      exact (ceil_div_exact (finalState conn rdr).batches.length
        conn.batch_size hbs).symm
    · have hbb : (runResult conn rdr).batches =
          (finalState conn rdr).batches ++ [(finalState conn rdr).doc_batch] := by
        rw [hb, if_neg hdbe]
      have hdbne : (finalState conn rdr).doc_batch ≠ [] := by
        simpa using hdbe
      have hm1 : 1 ≤ (finalState conn rdr).doc_batch.length :=
        List.length_pos.mpr hdbne
      have hlen : ((finalState conn rdr).batches ++
          [(finalState conn rdr).doc_batch]).flatten.length =
          (finalState conn rdr).batches.length * conn.batch_size +
            (finalState conn rdr).doc_batch.length := by
        rw [List.flatten_append, List.length_append,
          flatten_length_const (finalState conn rdr).batches
            conn.batch_size hball]
        simp
      rw [hbb, hlen]
      simp only [List.length_append, List.length_cons, List.length_nil]
      exact (ceil_div_rem (finalState conn rdr).batches.length
        (finalState conn rdr).doc_batch.length conn.batch_size hbs hm1 hdb).symm
  · by_cases hdbe : (finalState conn rdr).doc_batch.isEmpty
    · have hbb : (runResult conn rdr).batches = (finalState conn rdr).batches := by
        rw [hb, if_pos hdbe]
      rw [hbb]
      intro b hbm
      exact hball b (mem_of_mem_dropLast hbm)
    · have hbb : (runResult conn rdr).batches =
          (finalState conn rdr).batches ++ [(finalState conn rdr).doc_batch] := by
        rw [hb, if_neg hdbe]
      rw [hbb, List.dropLast_concat]
      exact hball

/-- Witness for C5: batch size 2 and a run producing three documents
(the seed page and its two PDF links, all rendering) yields two
batches.  The property is stated through the theorem at that input. -/
theorem batch_boundaries_witness :
    (runResult connBatchTwo rdrThreeDocs).batches.length =
      ((runResult connBatchTwo rdrThreeDocs).batches.flatten.length +
        connBatchTwo.batch_size - 1) / connBatchTwo.batch_size ∧
    (∀ b ∈ (runResult connBatchTwo rdrThreeDocs).batches.dropLast,
      b.length = connBatchTwo.batch_size) ∧
    (runResult connBatchTwo rdrThreeDocs).batches.flatten =
      docsOf rdrThreeDocs
        (renderUrls (runResult connBatchTwo rdrThreeDocs).events) :=
  batch_boundaries connBatchTwo rdrThreeDocs (by decide) (by decide)

/-- Claim C8 (amended): in a successful iteration, link discovery
appends to the frontier exactly the anchors whose (truthy) raw href
string ends in `".pdf"` — not those whose resolved target path ends in
`".pdf"` — each resolved against the current URL, and a resolved URL is
appended if and only if it is not in the visited set at that point
(which already contains the current URL). -/
theorem pdf_link_discovery (rdr : Renderer) (bs : Nat) (s : LoopState)
    (u : String) (pg : PageData) (h : rdr.render u = Except.ok pg) :
    (processUrl rdr bs s u).to_visit =
      s.to_visit ++ pg.hrefs.filterMap (fun href =>
        if href ≠ "" ∧ strEndsWith href ".pdf" ∧
            urljoin u href ∉ u :: s.visited_links
        then some (urljoin u href) else none) ∧
    (∀ url, url ∈ (processUrl rdr bs s u).to_visit ↔
      url ∈ s.to_visit ∨ ∃ href ∈ pg.hrefs, href ≠ "" ∧
        strEndsWith href ".pdf" ∧ url = urljoin u href ∧
        url ∉ u :: s.visited_links) := by
  constructor
  · rw [processUrl_to_visit_ok rdr bs s u pg h, pushPdfLinks_eq_append]
  · intro url
    rw [processUrl_to_visit_ok rdr bs s u pg h, mem_pushPdfLinks]

/-- Witness for C8's amended theorem: the seed page of `rdrQueryPdf`
pushes the resolution of its query-only href. -/
theorem pdf_link_discovery_witness :
    "https://example.test/index.html?file=report.pdf" ∈
      (processUrl rdrQueryPdf 10
        (initState ["https://example.test/index.html"] 0)
        "https://example.test/index.html").to_visit :=
  ((pdf_link_discovery rdrQueryPdf 10
      (initState ["https://example.test/index.html"] 0)
      "https://example.test/index.html" pgQueryPdf rfl).2
    "https://example.test/index.html?file=report.pdf").mpr
    (Or.inr ⟨"?file=report.pdf", by decide, by decide, by decide, by decide,
      by decide⟩)

/-- Counterexample to claim C8 as stated: the seed page's only anchor
has href `"?file=report.pdf"`, whose resolved target is the seed page
itself with a query string — a target path (`/index.html`) that does
not end in `".pdf"` — yet the code pushes and later renders it, because
the raw href string ends in `".pdf"`.  So link discovery does not push
exactly the anchors whose target path ends in `".pdf"`. -/
theorem query_href_pushed_despite_nonpdf_path :
    renderUrls (runResult connQueryPdf rdrQueryPdf).events =
      ["https://example.test/index.html",
       "https://example.test/index.html?file=report.pdf"] ∧
    strEndsWith
      (spec_targetPath "https://example.test/index.html?file=report.pdf")
      ".pdf" = false ∧
    strEndsWith "?file=report.pdf" ".pdf" = true :=
  ⟨rfl, rfl, rfl⟩

end Georisques

